import Mathlib

/-!
# Verification of the Pomodoro timer core (`usePomodoro`)

Shallow embedding of the timer engine found in the repository's
`usePomodoro` hook (the variant with the session-save side effect,
`src/unnamed/part_001`; the plain variant in `src/unnamed/part_002` has
the identical timer logic minus `saveSession`).

The React hook's state cells (`mode`, `timeLeft`, `isRunning`,
`completedSessions`, `endTimeRef`) become the fields of `TimerState`;
each handler becomes a pure function on `TimerState`, taking the current
wall-clock instant `now` (epoch milliseconds) explicitly where the source
reads `Date.now()`.  The Supabase insert performed by `saveSession`
becomes a returned `Option SessionRow` (the row handed to the
persistence collaborator, or `none` when no write happens).
-/

namespace Pomodoro

/-- TypeScript source: `type Mode = "work" | "break" | "longBreak"`.
`brk` models the source's `"break"` (a reserved word in Lean). -/
inductive Mode where
  | work
  | brk
  | longBreak
deriving DecidableEq, Repr

/-- Durations in seconds: `const TIMES = { work: 25*60, break: 5*60, longBreak: 15*60 }`. -/
def TIMES : Mode → Nat
  | Mode.work => 25 * 60
  | Mode.brk => 5 * 60
  | Mode.longBreak => 15 * 60

/-- Source constant `SESSIONS_UNTIL_LONG_BREAK = 4`. -/
def SESSIONS_UNTIL_LONG_BREAK : Nat := 4

/-- The hook's state cells.  `endTime` is `endTimeRef.current` in epoch
milliseconds (`none` models `null`); `timeLeft` is in seconds. -/
structure TimerState where
  mode : Mode
  timeLeft : Nat
  isRunning : Bool
  completedSessions : Nat
  endTime : Option Nat
deriving DecidableEq, Repr

/-- The row inserted into `study_sessions` by `saveSession`. -/
structure SessionRow where
  user_id : String
  mode : String
  duration_minutes : Nat
  task_name : Option String
  day_of_week : Nat
deriving DecidableEq, Repr

/-- The TypeScript string value of a `Mode` (`"work"`, `"break"`, `"longBreak"`). -/
def modeDbString : Mode → String
  | Mode.work => "work"
  | Mode.brk => "break"
  | Mode.longBreak => "longBreak"

/-- Initial hook state: `mode = "work"`, `timeLeft = TIMES.work`,
`isRunning = false`, `completedSessions = 0`, `endTimeRef.current = null`. -/
def initialState : TimerState :=
  { mode := Mode.work
    timeLeft := TIMES Mode.work
    isRunning := false
    completedSessions := 0
    endTime := none }

/-- Handler `handleModeChange(newMode)`:
`setMode(newMode); setTimeLeft(TIMES[newMode]); setIsRunning(false);
endTimeRef.current = null`. -/
def handleModeChange (newMode : Mode) (s : TimerState) : TimerState :=
  { s with
    mode := newMode
    timeLeft := TIMES newMode
    isRunning := false
    endTime := none }

/-- Handler `handleStart()`:
`endTimeRef.current = Date.now() + timeLeft * 1000; setIsRunning(true)`.
Note the source has no guard on `isRunning`. -/
def handleStart (now : Nat) (s : TimerState) : TimerState :=
  { s with
    endTime := some (now + s.timeLeft * 1000)
    isRunning := true }

/-- Handler `handlePause()`: `setIsRunning(false); endTimeRef.current = null`.
`timeLeft` retains its last computed value. -/
def handlePause (s : TimerState) : TimerState :=
  { s with isRunning := false, endTime := none }

/-- Handler `handleReset()`:
`setTimeLeft(TIMES[mode]); setIsRunning(false); endTimeRef.current = null`. -/
def handleReset (s : TimerState) : TimerState :=
  { s with timeLeft := TIMES s.mode, isRunning := false, endTime := none }

/-- Effect of `saveSession(sessionMode)`: it fetches the current user; if one is
present, inserts
`{ user_id, mode: sessionMode === "work" ? "pomodoro" : sessionMode,
   duration_minutes: Math.floor(TIMES[sessionMode] / 60),
   task_name: props?.currentTask || null, day_of_week: now.getDay() }`;
returns the inserted row, or `none` when no user is logged in
(the write is skipped).  The `try/catch` swallows any error, so the
function is total. -/
def saveSession (user : Option String) (currentTask : Option String)
    (dayOfWeek : Nat) (sessionMode : Mode) : Option SessionRow :=
  match user with
  | none => none
  | some uid =>
      some
        { user_id := uid
          mode := if sessionMode = Mode.work then "pomodoro" else modeDbString sessionMode
          duration_minutes := TIMES sessionMode / 60
          task_name := currentTask
          day_of_week := dayOfWeek }

/-- Handler `handleSkip()`: from `"work"`, increments `completedSessions`, calls
`saveSession("work")`, and changes mode to `"longBreak"` when the new
count is a multiple of `SESSIONS_UNTIL_LONG_BREAK`, else to `"break"`;
from a break mode, changes mode to `"work"` with no save.  Returns the
new state together with the row handed to the persistence layer (if any). -/
def handleSkip (user currentTask : Option String) (dayOfWeek : Nat)
    (s : TimerState) : TimerState × Option SessionRow :=
  if s.mode = Mode.work then
    let newSessions := s.completedSessions + 1
    let s1 := { s with completedSessions := newSessions }
    let row := saveSession user currentTask dayOfWeek Mode.work
    if newSessions % SESSIONS_UNTIL_LONG_BREAK = 0 then
      (handleModeChange Mode.longBreak s1, row)
    else
      (handleModeChange Mode.brk s1, row)
  else
    (handleModeChange Mode.work s, none)

/-- Remaining seconds, `Math.max(0, Math.ceil((endTime - Date.now()) / 1000))`, in `Nat`
arithmetic (truncated subtraction clamps at 0, `+ 999` then division
by 1000 is the ceiling); `computeRemaining_eq_ceil` below shows this
equals the source's floating-point formula. -/
def computeRemaining (endTime now : Nat) : Nat :=
  (endTime - now + 999) / 1000

/-- Recomputation body `updateTimer` (shared by the animation-frame tick and the
1-second backup interval):
`if (!endTimeRef.current) return;` then recompute `timeLeft`; when the
recomputed value is 0, `setIsRunning(false); endTimeRef.current = null;
playNotification(); handleSkip()`. -/
def updateTimer (user currentTask : Option String) (dayOfWeek : Nat)
    (now : Nat) (s : TimerState) : TimerState × Option SessionRow :=
  match s.endTime with
  | none => (s, none)
  | some e =>
      let remaining := computeRemaining e now
      let s1 := { s with timeLeft := remaining }
      if remaining = 0 then
        handleSkip user currentTask dayOfWeek
          { s1 with isRunning := false, endTime := none }
      else
        (s1, none)

/-- Handler `handleVisibilityChange` on becoming visible:
`if (isRunning && endTimeRef.current)` then the same recomputation and
zero-branch as `updateTimer` (the source duplicates that body verbatim);
otherwise nothing happens. -/
def handleVisibilityChange (user currentTask : Option String)
    (dayOfWeek : Nat) (now : Nat) (s : TimerState) :
    TimerState × Option SessionRow :=
  if s.isRunning then updateTimer user currentTask dayOfWeek now s
  else (s, none)

/-- The `mode` CHECK constraint of the `study_sessions` table:
`CHECK (mode IN ('pomodoro', 'shortBreak', 'longBreak'))`. -/
def modeCheckOk (r : SessionRow) : Prop :=
  r.mode = "pomodoro" ∨ r.mode = "shortBreak" ∨ r.mode = "longBreak"

instance (r : SessionRow) : Decidable (modeCheckOk r) := by
  unfold modeCheckOk; infer_instance

/-- The source's remaining-time expression over the rationals:
`max 0 ⌈(endTime − now) / 1000⌉` (JS number arithmetic on integral
millisecond timestamps is exact in this range). -/
def jsRemaining (endTime now : Nat) : ℤ :=
  max 0 ⌈(((endTime : ℚ) - (now : ℚ)) / 1000)⌉

/-! ## Observation sequences

The engine is recomputed from three triggers: the `requestAnimationFrame`
tick and the 1 s backup interval (both run `updateTimer`), and the
visibility handler (its own copy of the same body, guarded by
`isRunning`).  An observation is one such invocation at some instant. -/

/-- Which trigger invoked the recomputation. -/
inductive ObsKind where
  | tick
  | vis
deriving DecidableEq, Repr

/-- Run one recomputation trigger at instant `now`. -/
def observe (k : ObsKind) (user currentTask : Option String) (dayOfWeek now : Nat)
    (s : TimerState) : TimerState × Option SessionRow :=
  match k with
  | ObsKind.tick => updateTimer user currentTask dayOfWeek now s
  | ObsKind.vis => handleVisibilityChange user currentTask dayOfWeek now s

/-- A step performed the expiry transition exactly when it consumed the
armed target instant (the source nulls `endTimeRef` precisely in the
zero branch, just before `handleSkip`). -/
def firedStep (s s' : TimerState) : Bool :=
  s.endTime.isSome && s'.endTime.isNone

/-- Run a sequence of observations, counting expiry transitions. -/
def runObs (user currentTask : Option String) (dayOfWeek : Nat) :
    List (ObsKind × Nat) → TimerState → TimerState × Nat
  | [], s => (s, 0)
  | (k, now) :: rest, s =>
      let s' := (observe k user currentTask dayOfWeek now s).fst
      let r := runObs user currentTask dayOfWeek rest s'
      (r.fst, (if firedStep s s' then 1 else 0) + r.snd)

/-! ## Pause/resume segments

A run segment models: `handleStart` at instant `a`, the last recompute
(`updateTimer`) at instant `b`, then `handlePause` (which itself does not
recompute; `timeLeft` keeps the value of that last recompute). -/

/-- One start-run-pause segment from instant `a` to instant `b`. -/
def runSegment (a b : Nat) (s : TimerState) : TimerState :=
  handlePause (updateTimer none none 0 b (handleStart a s)).fst

/-- Run a list of segments in order. -/
def runSegs : List (Nat × Nat) → TimerState → TimerState
  | [], s => s
  | (a, b) :: rest, s => runSegs rest (runSegment a b s)

/-- Total wall-clock milliseconds spent running across the segments. -/
def totalRunningMs : List (Nat × Nat) → Nat
  | [] => 0
  | (a, b) :: rest => (b - a) + totalRunningMs rest

/-- Segments are well-formed for a timer currently showing `L` seconds:
ordered endpoints, whole-second length, and never reaching zero. -/
def segsOk : Nat → List (Nat × Nat) → Prop
  | _, [] => True
  | L, (a, b) :: rest =>
      a ≤ b ∧ (b - a) % 1000 = 0 ∧ (b - a) / 1000 < L ∧
        segsOk (L - (b - a) / 1000) rest

/-! ## Driving Focus sessions to natural expiry -/

/-- Start the timer at `t0` and let the clock reach the target exactly:
one recomputation at `t0 + timeLeft·1000` finds 0 and performs the
expiry transition. -/
def driveFocusToExpiry (t0 : Nat) (s : TimerState) : TimerState :=
  (updateTimer none none 0 (t0 + s.timeLeft * 1000) (handleStart t0 s)).fst

/-- If the engine sits in a break, skip it back to Focus (as the user
would); from Focus this is the identity. -/
def nextFocus (s : TimerState) : TimerState :=
  if s.mode = Mode.work then s else (handleSkip none none 0 s).fst

/-- State after `n` Focus sessions driven to natural expiry from the
initial state, skipping each intervening break. -/
def afterCompletion : Nat → TimerState
  | 0 => initialState
  | n + 1 => driveFocusToExpiry 0 (nextFocus (afterCompletion n))

/-! ## Helper lemmas -/

lemma ceil_natCast_div_thousand (a : Nat) :
    ⌈((a : ℚ) / 1000)⌉ = ((a + 999) / 1000 : ℕ) := by
  have hdm := Nat.div_add_mod (a + 999) 1000
  have hml : (a + 999) % 1000 < 1000 := Nat.mod_lt _ (by norm_num)
  rw [Int.ceil_eq_iff]
  constructor
  · rw [lt_div_iff (by norm_num : (0:ℚ) < 1000)]
    have h2 : ((((a + 999) / 1000 : ℕ) : ℤ) : ℚ) * 1000 < (a : ℚ) + 1000 := by
      exact_mod_cast (by omega : ((a + 999) / 1000) * 1000 < a + 1000)
    linarith
  · rw [div_le_iff (by norm_num : (0:ℚ) < 1000)]
    exact_mod_cast (by omega : a ≤ (a + 999) / 1000 * 1000)

/-- The `Nat` formula used in the embedding agrees with the source's
`Math.max(0, Math.ceil((endTime − now)/1000))`. -/
theorem computeRemaining_eq_ceil (endTime now : Nat) :
    (computeRemaining endTime now : ℤ) = jsRemaining endTime now := by
  unfold computeRemaining jsRemaining
  rcases le_or_lt endTime now with h | h
  · have h0 : endTime - now = 0 := Nat.sub_eq_zero_of_le h
    rw [h0]
    have hle : ((endTime : ℚ) - now) / 1000 ≤ 0 := by
      apply div_nonpos_of_nonpos_of_nonneg
      · simp only [sub_nonpos]
        exact_mod_cast h
      · norm_num
    have : ⌈((endTime : ℚ) - now) / 1000⌉ ≤ 0 := by
      exact Int.ceil_le.mpr (by exact_mod_cast hle)
    omega
  · have hsub : ((endTime : ℚ) - now) = ((endTime - now : ℕ) : ℚ) := by
      have : now ≤ endTime := le_of_lt h
      push_cast [Nat.cast_sub this]
      ring
    rw [hsub, ceil_natCast_div_thousand]
    have hpos : (0 : ℤ) ≤ ((endTime - now + 999) / 1000 : ℕ) := by
      exact_mod_cast Nat.zero_le _
    omega

/-- Zero case: `computeRemaining` hits 0 exactly when the target instant has passed. -/
lemma computeRemaining_eq_zero_iff (e now : Nat) :
    computeRemaining e now = 0 ↔ e ≤ now := by
  unfold computeRemaining
  omega

/-- On a whole-second offset below the target, `computeRemaining` is exact. -/
lemma computeRemaining_exact (t0 L d : Nat) (h : d ≤ L) :
    computeRemaining (t0 + L * 1000) (t0 + d * 1000) = L - d := by
  unfold computeRemaining
  have : d * 1000 ≤ L * 1000 := Nat.mul_le_mul_right _ h
  omega

/-- After a skip (from any mode) the engine is stopped and disarmed:
every branch of `handleSkip` ends in `handleModeChange`. -/
lemma handleSkip_fst_stopped (u t : Option String) (d : Nat) (s : TimerState) :
    (handleSkip u t d s).fst.endTime = none ∧
      (handleSkip u t d s).fst.isRunning = false := by
  unfold handleSkip
  by_cases hm : s.mode = Mode.work <;>
    by_cases h4 : (s.completedSessions + 1) % SESSIONS_UNTIL_LONG_BREAK = 0 <;>
      simp [hm, h4, handleModeChange]

/-- A recomputation with no armed target is a no-op. -/
lemma observe_disarmed (k : ObsKind) (u t : Option String) (d now : Nat)
    (s : TimerState) (h : s.endTime = none) :
    observe k u t d now s = (s, none) := by
  cases k <;> simp [observe, updateTimer, handleVisibilityChange, h]

/-- A whole observation sequence with no armed target is a no-op and
fires nothing. -/
lemma runObs_disarmed (u t : Option String) (d : Nat)
    (obs : List (ObsKind × Nat)) (s : TimerState) (h : s.endTime = none) :
    runObs u t d obs s = (s, 0) := by
  induction obs with
  | nil => rfl
  | cons p rest ih =>
      obtain ⟨k, now⟩ := p
      simp [runObs, observe_disarmed k u t d now s h, firedStep, h, ih]

/-- A recomputation before the target instant only refreshes `timeLeft`. -/
lemma observe_armed_live (k : ObsKind) (u t : Option String) (d now : Nat)
    (s : TimerState) (e : Nat) (he : s.endTime = some e)
    (hr : s.isRunning = true) (hlt : now < e) :
    observe k u t d now s = ({ s with timeLeft := computeRemaining e now }, none) := by
  have hnz : ¬ computeRemaining e now = 0 := by
    rw [computeRemaining_eq_zero_iff]
    omega
  cases k <;> simp [observe, updateTimer, handleVisibilityChange, he, hr, hnz]

/-- A recomputation at or after the target instant performs the expiry
transition: it stops the engine and clears the target. -/
lemma observe_armed_expired (k : ObsKind) (u t : Option String) (d now : Nat)
    (s : TimerState) (e : Nat) (he : s.endTime = some e)
    (hr : s.isRunning = true) (hle : e ≤ now) :
    (observe k u t d now s).fst.endTime = none ∧
      (observe k u t d now s).fst.isRunning = false := by
  have hz : computeRemaining e now = 0 := (computeRemaining_eq_zero_iff e now).mpr hle
  cases k <;>
    simp only [observe, updateTimer, handleVisibilityChange, he, hr, hz,
      if_true, if_pos, reduceIte] <;>
    exact handleSkip_fst_stopped _ _ _ _

/-- Invariant for an armed, running engine: an observation sequence
either never reaches the target (fires 0 times, stays armed and running)
or fires exactly once and ends disarmed. -/
lemma runObs_armed (u t : Option String) (d : Nat)
    (obs : List (ObsKind × Nat)) (s : TimerState) (e : Nat)
    (he : s.endTime = some e) (hr : s.isRunning = true) :
    ((runObs u t d obs s).snd = 0 ∧ (runObs u t d obs s).fst.endTime = some e ∧
       (runObs u t d obs s).fst.isRunning = true ∧ ∀ p ∈ obs, p.2 < e) ∨
      ((runObs u t d obs s).snd = 1 ∧ (runObs u t d obs s).fst.endTime = none) := by
  induction obs generalizing s with
  | nil =>
      left
      refine ⟨rfl, he, hr, ?_⟩
      intro p hp
      cases hp
  | cons p rest ih =>
      obtain ⟨k, now⟩ := p
      rcases lt_or_le now e with hlt | hle
      · have hstep := observe_armed_live k u t d now s e he hr hlt
        have he' : ((observe k u t d now s).fst).endTime = some e := by
          rw [hstep]; exact he
        have hr' : ((observe k u t d now s).fst).isRunning = true := by
          rw [hstep]; exact hr
        have hfired : firedStep s (observe k u t d now s).fst = false := by
          simp [firedStep, he, he']
        rcases ih (observe k u t d now s).fst he' hr' with
          ⟨hc, hend, hrun, hall⟩ | ⟨hc, hend⟩
        · left
          refine ⟨?_, ?_, ?_, ?_⟩
          · simp [runObs, hfired, hc]
          · simpa [runObs] using hend
          · simpa [runObs] using hrun
          · intro q hq
            rcases List.mem_cons.mp hq with hq | hq
            · subst hq; exact hlt
            · exact hall q hq
        · right
          constructor
          · simp [runObs, hfired, hc]
          · simpa [runObs] using hend
      · have hstep := observe_armed_expired k u t d now s e he hr hle
        have hfired : firedStep s (observe k u t d now s).fst = true := by
          simp [firedStep, he, hstep.1]
        have hrest := runObs_disarmed u t d rest (observe k u t d now s).fst hstep.1
        right
        constructor
        · simp [runObs, hfired, hrest]
        · simp [runObs, hrest, hstep.1]

/-- One start-run-pause segment of `k` whole seconds, with the timer
staying above zero, ends paused with exactly `k` seconds consumed and
everything else untouched. -/
lemma runSegment_spec (a b : Nat) (s : TimerState) (hab : a ≤ b)
    (hmod : (b - a) % 1000 = 0) (hlt : (b - a) / 1000 < s.timeLeft) :
    runSegment a b s =
      { s with
        timeLeft := s.timeLeft - (b - a) / 1000
        isRunning := false
        endTime := none } := by
  have hcr : computeRemaining (a + s.timeLeft * 1000) b
      = s.timeLeft - (b - a) / 1000 := by
    unfold computeRemaining
    omega
  have hnz : ¬ (s.timeLeft - (b - a) / 1000 = 0) := by omega
  unfold runSegment handleStart updateTimer
  simp only [hcr, hnz, if_false, reduceIte, handlePause]

/-- Accounting across well-formed segments: milliseconds spent running
plus the final displayed seconds (in ms) reconstruct the initial
displayed seconds; mode and session count are untouched. -/
lemma runSegs_accounting (segs : List (Nat × Nat)) (s : TimerState)
    (hok : segsOk s.timeLeft segs) :
    (runSegs segs s).timeLeft * 1000 + totalRunningMs segs = s.timeLeft * 1000 ∧
      (runSegs segs s).mode = s.mode ∧
      (runSegs segs s).completedSessions = s.completedSessions ∧
      ((runSegs segs s).isRunning = s.isRunning ∨ (runSegs segs s).isRunning = false) := by
  induction segs generalizing s with
  | nil => simp [runSegs, totalRunningMs]
  | cons p rest ih =>
      obtain ⟨a, b⟩ := p
      obtain ⟨hab, hmod, hlt, hrest⟩ := hok
      have hseg := runSegment_spec a b s hab hmod hlt
      have hok' : segsOk (runSegment a b s).timeLeft rest := by
        rw [hseg]; exact hrest
      obtain ⟨hacc, hmode, hcount, hrun⟩ := ih (runSegment a b s) hok'
      refine ⟨?_, ?_, ?_, ?_⟩
      · have htl : (runSegment a b s).timeLeft = s.timeLeft - (b - a) / 1000 := by
          rw [hseg]
        simp only [runSegs, totalRunningMs]
        rw [htl] at hacc
        omega
      · simpa [runSegs, hseg] using hmode
      · simpa [runSegs, hseg] using hcount
      · right
        have hfalse : (runSegment a b s).isRunning = false := by rw [hseg]
        rcases hrun with hrun | hrun
        · simp only [runSegs]
          rw [hrun]
          exact hfalse
        · simpa [runSegs] using hrun

/-- Emission site: `handleSkip` hands a row to the persistence layer iff
the skipped mode was `"work"`, and that row is `saveSession`'s row. -/
lemma handleSkip_snd (u t : Option String) (d : Nat) (s : TimerState) :
    (handleSkip u t d s).snd =
      if s.mode = Mode.work then saveSession u t d Mode.work else none := by
  unfold handleSkip
  by_cases hm : s.mode = Mode.work <;>
    by_cases h4 : (s.completedSessions + 1) % SESSIONS_UNTIL_LONG_BREAK = 0 <;>
      simp [hm, h4]

/-- Any row produced by `saveSession` carries the translated mode string. -/
lemma saveSession_mode (u t : Option String) (d : Nat) (m : Mode)
    (r : SessionRow) (h : saveSession u t d m = some r) :
    r.mode = (if m = Mode.work then "pomodoro" else modeDbString m) := by
  cases u with
  | none => simp [saveSession] at h
  | some uid =>
      simp [saveSession] at h
      rw [← h]

/-- Any row handed out by `handleSkip` has mode string `"pomodoro"`. -/
lemma handleSkip_emits_pomodoro (u t : Option String) (d : Nat)
    (s : TimerState) (r : SessionRow)
    (h : (handleSkip u t d s).snd = some r) : r.mode = "pomodoro" := by
  rw [handleSkip_snd] at h
  by_cases hm : s.mode = Mode.work
  · rw [if_pos hm] at h
    simpa using saveSession_mode u t d Mode.work r h
  · rw [if_neg hm] at h
    cases h

/-- Any row handed out by `updateTimer` comes from the `handleSkip` it
invokes in its zero branch. -/
lemma updateTimer_emits_pomodoro (u t : Option String) (d now : Nat)
    (s : TimerState) (r : SessionRow)
    (h : (updateTimer u t d now s).snd = some r) : r.mode = "pomodoro" := by
  unfold updateTimer at h
  cases hE : s.endTime with
  | none => rw [hE] at h; cases h
  | some e =>
      rw [hE] at h
      simp only at h
      by_cases hz : computeRemaining e now = 0
      · rw [if_pos hz] at h
        exact handleSkip_emits_pomodoro u t d _ r h
      · rw [if_neg hz] at h
        cases h

/-! ## The claims -/

/-- C1 (functional correctness).  While the timer is running, every
recomputation — animation-frame tick, backup interval (`updateTimer`),
or visibility handler — sets `remainingSeconds` to
`max(0, ceil((targetEndEpoch − now)/1000))`; consequently after
`start()` and a wall-clock advance of exactly `d` seconds with
`d < remainingSeconds`, one recomputation yields
`remainingSeconds − d` exactly (within the claimed ±1 s) and the timer
keeps running, with nothing emitted. -/
theorem recompute_drift_free :
    (∀ (u t : Option String) (d now : Nat) (s : TimerState) (e : Nat),
        s.endTime = some e → 0 < computeRemaining e now →
          (((updateTimer u t d now s).fst.timeLeft : ℤ) = jsRemaining e now ∧
            (updateTimer u t d now s).fst.isRunning = s.isRunning ∧
            (updateTimer u t d now s).snd = none)) ∧
    (∀ (u t : Option String) (d now : Nat) (s : TimerState) (e : Nat),
        s.isRunning = true → s.endTime = some e → 0 < computeRemaining e now →
          ((handleVisibilityChange u t d now s).fst.timeLeft : ℤ) = jsRemaining e now) ∧
    (∀ (u t : Option String) (d t0 dd : Nat) (s : TimerState),
        dd < s.timeLeft →
          ((updateTimer u t d (t0 + dd * 1000) (handleStart t0 s)).fst.timeLeft
              = s.timeLeft - dd ∧
            (updateTimer u t d (t0 + dd * 1000) (handleStart t0 s)).fst.isRunning = true ∧
            (updateTimer u t d (t0 + dd * 1000) (handleStart t0 s)).snd = none)) := by
  have hupd : ∀ (u t : Option String) (d now : Nat) (s : TimerState) (e : Nat),
      s.endTime = some e → 0 < computeRemaining e now →
        updateTimer u t d now s = ({ s with timeLeft := computeRemaining e now }, none) := by
    intro u t d now s e he hpos
    have hnz : ¬ computeRemaining e now = 0 := by omega
    simp [updateTimer, he, hnz]
  refine ⟨?_, ?_, ?_⟩
  · intro u t d now s e he hpos
    rw [hupd u t d now s e he hpos]
    exact ⟨computeRemaining_eq_ceil e now, rfl, rfl⟩
  · intro u t d now s e hr he hpos
    have : handleVisibilityChange u t d now s = updateTimer u t d now s := by
      simp [handleVisibilityChange, hr]
    rw [this, hupd u t d now s e he hpos]
    exact computeRemaining_eq_ceil e now
  · intro u t d t0 dd s hlt
    have he : (handleStart t0 s).endTime = some (t0 + s.timeLeft * 1000) := rfl
    have hcr : computeRemaining (t0 + s.timeLeft * 1000) (t0 + dd * 1000)
        = s.timeLeft - dd := computeRemaining_exact t0 s.timeLeft dd (le_of_lt hlt)
    have hpos : 0 < computeRemaining (t0 + s.timeLeft * 1000) (t0 + dd * 1000) := by
      omega
    rw [hupd u t d (t0 + dd * 1000) (handleStart t0 s) _ he hpos]
    exact ⟨hcr, rfl, rfl⟩

/-- Witness for C1: from the initial Focus state, start at 0 ms and
recompute after 600 s: 900 s remain, still running, nothing emitted. -/
theorem recompute_drift_free_witness :
    (updateTimer none none 0 600000 (handleStart 0 initialState)).fst.timeLeft = 900 ∧
      (updateTimer none none 0 600000 (handleStart 0 initialState)).fst.isRunning = true ∧
      (updateTimer none none 0 600000 (handleStart 0 initialState)).snd = none := by
  have h := recompute_drift_free.2.2 none none 0 0 600 initialState (by decide)
  exact ⟨h.1.trans (by decide), h.2.1, h.2.2⟩

/-- C2 (functional correctness).  On every `skip()` or natural expiry:
from Focus the count increments and the next mode is LongBreak exactly
when the new count is divisible by 4, else ShortBreak; from a break the
next mode is Focus; the new mode always starts not running at its full
duration with the target cleared.  Driving Focus sessions to natural
expiry from count 0: completions 1–3 land in ShortBreak, completions 4
and 8 in LongBreak. -/
theorem skip_transition_spec :
    (∀ (u t : Option String) (d : Nat) (s : TimerState), s.mode = Mode.work →
        ((handleSkip u t d s).fst.completedSessions = s.completedSessions + 1 ∧
          (handleSkip u t d s).fst.mode =
            (if (s.completedSessions + 1) % 4 = 0 then Mode.longBreak else Mode.brk) ∧
          (handleSkip u t d s).fst.isRunning = false ∧
          (handleSkip u t d s).fst.timeLeft = TIMES (handleSkip u t d s).fst.mode ∧
          (handleSkip u t d s).fst.endTime = none)) ∧
    (∀ (u t : Option String) (d : Nat) (s : TimerState), s.mode ≠ Mode.work →
        ((handleSkip u t d s).fst.mode = Mode.work ∧
          (handleSkip u t d s).fst.isRunning = false ∧
          (handleSkip u t d s).fst.timeLeft = TIMES Mode.work ∧
          (handleSkip u t d s).fst.completedSessions = s.completedSessions ∧
          (handleSkip u t d s).fst.endTime = none)) ∧
    ((afterCompletion 1).mode = Mode.brk ∧ (afterCompletion 2).mode = Mode.brk ∧
      (afterCompletion 3).mode = Mode.brk ∧ (afterCompletion 4).mode = Mode.longBreak ∧
      (afterCompletion 8).mode = Mode.longBreak ∧
      (afterCompletion 4).completedSessions = 4 ∧
      (afterCompletion 8).completedSessions = 8 ∧
      (afterCompletion 4).isRunning = false) := by
  refine ⟨?_, ?_, by decide⟩
  · intro u t d s hm
    unfold handleSkip
    by_cases h4 : (s.completedSessions + 1) % 4 = 0 <;>
      simp [hm, h4, SESSIONS_UNTIL_LONG_BREAK, handleModeChange]
  · intro u t d s hm
    unfold handleSkip
    simp [hm, handleModeChange]

/-- Witness for C2: one skip from the initial Focus state increments the
count to 1 and lands in ShortBreak; a skip from ShortBreak returns to
Focus. -/
theorem skip_transition_spec_witness :
    (handleSkip none none 0 initialState).fst.completedSessions = 1 ∧
      (handleSkip none none 0 initialState).fst.mode = Mode.brk ∧
      (handleSkip none none 0 (handleModeChange Mode.brk initialState)).fst.mode
        = Mode.work := by
  have h1 := skip_transition_spec.1 none none 0 initialState (by decide)
  have h2 := skip_transition_spec.2.1 none none 0
    (handleModeChange Mode.brk initialState) (by decide)
  exact ⟨h1.1.trans (by decide), h1.2.1.trans (by decide), h2.1⟩

/-- C3 (temporal).  After `start()`, over any sequence of recomputations
(ticks, backup-interval invocations, visibility-regain recomputations at
arbitrary instants), the expiry transition is performed at most once,
and exactly once as soon as any observation happens at or after the
target instant — redundant recomputations after expiry are no-ops, so no
duplicate completion is ever processed for the same interval. -/
theorem expiry_fires_exactly_once (u t : Option String) (d t0 : Nat)
    (s : TimerState) (obs : List (ObsKind × Nat)) :
    (runObs u t d obs (handleStart t0 s)).snd ≤ 1 ∧
      ((∃ p ∈ obs, t0 + s.timeLeft * 1000 ≤ p.2) →
        (runObs u t d obs (handleStart t0 s)).snd = 1) := by
  have he : (handleStart t0 s).endTime = some (t0 + s.timeLeft * 1000) := rfl
  have hr : (handleStart t0 s).isRunning = true := rfl
  rcases runObs_armed u t d obs (handleStart t0 s) (t0 + s.timeLeft * 1000) he hr with
    ⟨hc, _, _, hall⟩ | ⟨hc, _⟩
  · constructor
    · omega
    · rintro ⟨p, hp, hle⟩
      exact absurd (hall p hp) (by omega)
  · exact ⟨by omega, fun _ => hc⟩

/-- Witness for C3: a 25-minute Focus start at 0 ms observed three times
after the target (a late tick, a redundant tick, then a
visibility-regain recomputation) fires exactly once. -/
theorem expiry_fires_exactly_once_witness :
    (runObs none none 0
        [(ObsKind.tick, 2000000), (ObsKind.tick, 2000001), (ObsKind.vis, 2000002)]
        (handleStart 0 initialState)).snd = 1 :=
  (expiry_fires_exactly_once none none 0 0 initialState
      [(ObsKind.tick, 2000000), (ObsKind.tick, 2000001), (ObsKind.vis, 2000002)]).2
    (by decide)

/-- C4 counterexample.  Calling `start()` while already running is not a
no-op: from the initial state, `start()` at 0 ms arms the target at
1500000 ms; a second `start()` at 500 ms re-anchors the target to
1500500 ms, so the observable state (its `targetEndEpoch`) differs. -/
theorem start_while_running_not_noop :
    (handleStart 0 initialState).isRunning = true ∧
      handleStart 500 (handleStart 0 initialState) ≠ handleStart 0 initialState ∧
      (handleStart 500 (handleStart 0 initialState)).endTime ≠
        (handleStart 0 initialState).endTime := by decide

/-- C4 amended.  Calling `start()` while the timer is already running
leaves `mode`, `remainingSeconds`, `running` and `completedFocusCount`
unchanged, but re-anchors `targetEndEpoch` to `now + remainingSeconds·1000`,
which need not equal its previous value (it coincides only when the call
lands exactly where the old target already equals that sum). -/
theorem start_while_running_reanchors (now : Nat) (s : TimerState)
    (h : s.isRunning = true) :
    (handleStart now s).mode = s.mode ∧
      (handleStart now s).timeLeft = s.timeLeft ∧
      (handleStart now s).isRunning = true ∧
      (handleStart now s).completedSessions = s.completedSessions ∧
      (handleStart now s).endTime = some (now + s.timeLeft * 1000) :=
  ⟨rfl, rfl, rfl, rfl, rfl⟩

/-- Witness for C4's amended statement at the counterexample's input. -/
theorem start_while_running_reanchors_witness :
    (handleStart 500 (handleStart 0 initialState)).endTime = some 1500500 := by
  have h := start_while_running_reanchors 500 (handleStart 0 initialState) (by decide)
  exact h.2.2.2.2.trans (by decide)

/-- C5 counterexample.  One start at 0 ms and pause at 400 ms: 400 ms of
wall-clock running time elapse, but the displayed time is still 1500 s,
so nominal duration minus final `remainingSeconds` is 0 s — pausing at a
sub-second instant loses the elapsed fraction, refuting the exact
equality "no matter at what sub-second instants they happen". -/
theorem pause_subsecond_accounting_gap :
    (runSegs [(0, 400)] initialState).isRunning = false ∧
      (runSegs [(0, 400)] initialState).mode = initialState.mode ∧
      totalRunningMs [(0, 400)] = 400 ∧
      (TIMES (runSegs [(0, 400)] initialState).mode
          - (runSegs [(0, 400)] initialState).timeLeft) * 1000 = 0 ∧
      (400 : Nat) ≠ 0 := by decide

/-- C5 amended.  For any alternating `start()`/`pause()` sequence whose
run segments each last a whole number of seconds (and never reach zero),
the total wall-clock running time equals the mode's nominal duration
minus the final `remainingSeconds` exactly, however many pause/resume
cycles occur; mode and completed count are untouched.  (At sub-second
pause instants, up to one second per pause is forgiven, as the
counterexample shows.) -/
theorem pause_resume_accounting (segs : List (Nat × Nat)) (s : TimerState)
    (hfull : s.timeLeft = TIMES s.mode) (hok : segsOk s.timeLeft segs) :
    totalRunningMs segs = (TIMES s.mode - (runSegs segs s).timeLeft) * 1000 ∧
      (runSegs segs s).mode = s.mode ∧
      (runSegs segs s).completedSessions = s.completedSessions := by
  obtain ⟨hacc, hmode, hcount, _⟩ := runSegs_accounting segs s hok
  refine ⟨?_, hmode, hcount⟩
  rw [← hfull]
  omega

/-- Witness for C5's amended statement: run 2 s, pause, run 3 s, pause;
5000 ms running = (1500 − 1495) s. -/
theorem pause_resume_accounting_witness :
    totalRunningMs [(0, 2000), (5000, 8000)] =
      (TIMES Mode.work - (runSegs [(0, 2000), (5000, 8000)] initialState).timeLeft)
        * 1000 := by
  have h := pause_resume_accounting [(0, 2000), (5000, 8000)] initialState rfl
    (by simp [segsOk, initialState, TIMES])
  exact h.1

/-- C6 (functional correctness).  With an authenticated user, exactly
one `SessionRecord` is handed to the persistence collaborator per Focus
completion — whether by manual `skip()` or by natural expiry — and none
when a ShortBreak or LongBreak completes. -/
theorem focus_completion_emits_record :
    (∀ (uid : String) (t : Option String) (d : Nat) (s : TimerState),
        ((handleSkip (some uid) t d s).snd.isSome = true ↔ s.mode = Mode.work)) ∧
    (∀ (uid : String) (t : Option String) (d now : Nat) (s : TimerState) (e : Nat),
        s.endTime = some e → e ≤ now →
          ((updateTimer (some uid) t d now s).snd.isSome = true ↔ s.mode = Mode.work)) := by
  have hskip : ∀ (uid : String) (t : Option String) (d : Nat) (s : TimerState),
      ((handleSkip (some uid) t d s).snd.isSome = true ↔ s.mode = Mode.work) := by
    intro uid t d s
    rw [handleSkip_snd]
    by_cases hm : s.mode = Mode.work <;> simp [hm, saveSession]
  refine ⟨hskip, ?_⟩
  intro uid t d now s e he hle
  have hz : computeRemaining e now = 0 := (computeRemaining_eq_zero_iff e now).mpr hle
  have : updateTimer (some uid) t d now s =
      handleSkip (some uid) t d
        { s with timeLeft := 0, isRunning := false, endTime := none } := by
    simp [updateTimer, he, hz]
  rw [this, hskip]

/-- Witness for C6: a manual skip and a natural expiry from Focus each
hand over a record; a skip from ShortBreak hands over none. -/
theorem focus_completion_emits_record_witness :
    (handleSkip (some "u") none 0 initialState).snd.isSome = true ∧
      (updateTimer (some "u") none 0 1500000 (handleStart 0 initialState)).snd.isSome
        = true ∧
      ¬ (handleSkip (some "u") none 0
          (handleModeChange Mode.brk initialState)).snd.isSome = true := by
  refine ⟨?_, ?_, ?_⟩
  · exact (focus_completion_emits_record.1 "u" none 0 initialState).mpr (by decide)
  · exact (focus_completion_emits_record.2 "u" none 0 1500000 (handleStart 0 initialState)
      (0 + initialState.timeLeft * 1000) rfl (by decide)).mpr (by decide)
  · intro hsome
    exact absurd ((focus_completion_emits_record.1 "u" none 0
      (handleModeChange Mode.brk initialState)).mp hsome) (by decide)

/-- C7 (functional correctness).  Every record handed over for a Focus
completion reports `durationMinutes = 25`, the full nominal Focus
duration — for every state, in particular whatever `timeLeft` remains
when the user skips early. -/
theorem record_reports_nominal_duration (uid : String) (t : Option String)
    (d : Nat) (s : TimerState) (h : s.mode = Mode.work) :
    (handleSkip (some uid) t d s).snd =
      some { user_id := uid, mode := "pomodoro", duration_minutes := 25,
             task_name := t, day_of_week := d } := by
  rw [handleSkip_snd, if_pos h]
  simp [saveSession, TIMES]

/-- Witness for C7: skipping a Focus session with 1234 s still on the
clock logs 25 minutes, not the elapsed time. -/
theorem record_reports_nominal_duration_witness :
    (handleSkip (some "u") (some "algebra") 2
        { mode := Mode.work, timeLeft := 1234, isRunning := true,
          completedSessions := 0, endTime := some 99 }).snd =
      some { user_id := "u", mode := "pomodoro", duration_minutes := 25,
             task_name := some "algebra", day_of_week := 2 } :=
  record_reports_nominal_duration "u" (some "algebra") 2
    { mode := Mode.work, timeLeft := 1234, isRunning := true,
      completedSessions := 0, endTime := some 99 } rfl

/-- C8 (frame/effect).  For every mode `m` and every starting state,
`changeMode(m)` sets `mode = m`, `remainingSeconds = duration(m)`,
`running = false`, clears `targetEndEpoch`, and leaves
`completedFocusCount` unchanged (the definition of `handleModeChange`
contains no emission site, so no record is produced). -/
theorem changeMode_spec (m : Mode) (s : TimerState) :
    handleModeChange m s =
      { mode := m, timeLeft := TIMES m, isRunning := false,
        completedSessions := s.completedSessions, endTime := none } := rfl

/-- C9 (error handling).  When no user identity is present the
persistence write is skipped (`saveSession` inserts nothing, and its
`try/catch` means nothing is raised — the embedding is total), while the
timer transition is exactly the one an authenticated skip performs. -/
theorem unauthenticated_skip_spec (t t0 : Option String) (d d0 : Nat)
    (u : Option String) (s : TimerState) :
    (handleSkip none t d s).snd = none ∧
      (handleSkip u t d s).fst = (handleSkip none t0 d0 s).fst := by
  unfold handleSkip
  by_cases hm : s.mode = Mode.work <;>
    by_cases h4 : (s.completedSessions + 1) % SESSIONS_UNTIL_LONG_BREAK = 0 <;>
      simp [hm, h4, saveSession]

/-- C10 (implicit).  Every row the engine hands to the `study_sessions`
store — via a manual skip, a tick/interval expiry, or a visibility-regain
expiry — has `mode = "pomodoro"` (the internal `"work"` is translated on
insert and break modes are never inserted), so every inserted row
satisfies `CHECK (mode IN ('pomodoro', 'shortBreak', 'longBreak'))`. -/
theorem inserted_mode_satisfies_check :
    (∀ (u t : Option String) (d : Nat) (s : TimerState) (r : SessionRow),
        (handleSkip u t d s).snd = some r → r.mode = "pomodoro" ∧ modeCheckOk r) ∧
    (∀ (u t : Option String) (d now : Nat) (s : TimerState) (r : SessionRow),
        (updateTimer u t d now s).snd = some r → r.mode = "pomodoro" ∧ modeCheckOk r) ∧
    (∀ (u t : Option String) (d now : Nat) (s : TimerState) (r : SessionRow),
        (handleVisibilityChange u t d now s).snd = some r →
          r.mode = "pomodoro" ∧ modeCheckOk r) := by
  refine ⟨?_, ?_, ?_⟩
  · intro u t d s r h
    have hm := handleSkip_emits_pomodoro u t d s r h
    exact ⟨hm, Or.inl hm⟩
  · intro u t d now s r h
    have hm := updateTimer_emits_pomodoro u t d now s r h
    exact ⟨hm, Or.inl hm⟩
  · intro u t d now s r h
    unfold handleVisibilityChange at h
    by_cases hr : s.isRunning
    · rw [if_pos hr] at h
      have hm := updateTimer_emits_pomodoro u t d now s r h
      exact ⟨hm, Or.inl hm⟩
    · rw [if_neg hr] at h
      cases h

/-- Witness for C10: the row actually produced by a Focus skip carries
`mode = "pomodoro"` and passes the CHECK constraint. -/
theorem inserted_mode_satisfies_check_witness :
    ({ user_id := "u", mode := "pomodoro", duration_minutes := 25,
       task_name := none, day_of_week := 0 } : SessionRow).mode = "pomodoro" ∧
      modeCheckOk { user_id := "u", mode := "pomodoro", duration_minutes := 25,
                    task_name := none, day_of_week := 0 } :=
  inserted_mode_satisfies_check.1 (some "u") none 0 initialState
    { user_id := "u", mode := "pomodoro", duration_minutes := 25,
      task_name := none, day_of_week := 0 } (by decide)

end Pomodoro
